import Mathlib

/-!
Shallow embedding of the EtherVM virtual CPU (src/cpu.rs, src/memory.rs,
src/io.rs) and proofs about it.

Machine words (Rust `u32`) are embedded as `Nat` with explicit reduction
modulo `2^32` exactly where the Rust code wraps; memory bytes (`u8`) are
`Nat` values below 256.  Rust panics (array indexing out of bounds,
division by zero, unknown opcode) are embedded as `Except` errors.
-/

/-- The modulus of a 32-bit machine word, `2^32`. -/
def wordMod : Nat := 4294967296

/-- Size of the flat byte store: `vec![0; 65536]`, 64 KiB. -/
def memSize : Nat := 65536

/-- The fatal faults of the engine: unknown opcode at dispatch, division by
zero in DIV, out-of-bounds memory access, and out-of-range register index
(a bounds panic on the 8-entry register array in the Rust source). -/
inductive VMError where
  | unknownOpcode (op : Nat)
  | divisionByZero
  | outOfBounds
  | registerOutOfRange
deriving DecidableEq

/-- Rust `u32::wrapping_sub`: for `a, b < 2^32` this is `(a - b) mod 2^32`. -/
def wsub (a b : Nat) : Nat := (a + wordMod - b % wordMod) % wordMod

/-- The memory management unit of src/memory.rs: a flat byte-addressable
store, embedded as a function from address to byte value. -/
structure MemoryManagementUnit where
  memory : Nat → Nat

/-- `MemoryManagementUnit::new`: 64 KiB of zeroed memory. -/
def MemoryManagementUnit.new : MemoryManagementUnit := ⟨fun _ => 0⟩

/-- `read_byte`: `self.memory[address]`; the `Vec` indexing panics when
`address >= 65536`, embedded as an OutOfBounds error. -/
def MemoryManagementUnit.read_byte (m : MemoryManagementUnit) (address : Nat) :
    Except VMError Nat :=
  if address < memSize then .ok (m.memory address) else .error .outOfBounds

/-- `write_byte`: `self.memory[address] = value`, same bound behaviour. -/
def MemoryManagementUnit.write_byte (m : MemoryManagementUnit) (address value : Nat) :
    Except VMError MemoryManagementUnit :=
  if address < memSize then
    .ok ⟨fun j => if j = address then value else m.memory j⟩
  else .error .outOfBounds

/-- `read_word`: slices `memory[address..address+4]` (the slice panics
exactly when `address + 4 > 65536`, i.e. `address + 3 >= 65536`) and
combines the bytes with `u32::from_le_bytes`, least-significant first. -/
def MemoryManagementUnit.read_word (m : MemoryManagementUnit) (address : Nat) :
    Except VMError Nat :=
  if address + 3 < memSize then
    .ok (m.memory address +
         256 * (m.memory (address + 1) +
           256 * (m.memory (address + 2) + 256 * m.memory (address + 3))))
  else .error .outOfBounds

/-- `write_word`: `value.to_le_bytes()` copied into
`memory[address..address+4]`; byte `i` of the word is `value / 256^i % 256`. -/
def MemoryManagementUnit.write_word (m : MemoryManagementUnit) (address value : Nat) :
    Except VMError MemoryManagementUnit :=
  if address + 3 < memSize then
    .ok ⟨fun j =>
      if j = address then value % 256
      else if j = address + 1 then value / 256 % 256
      else if j = address + 2 then value / 65536 % 256
      else if j = address + 3 then value / 16777216 % 256
      else m.memory j⟩
  else .error .outOfBounds

/-- The test double of src/io.rs (`MockIOController`): `input()` returns
`next_input` and `output(v)` records `v` in `last_output`. -/
structure MockIOController where
  next_input : Nat
  last_output : Nat
deriving DecidableEq

/-- The CPU state of src/cpu.rs.  The dispatch table is a fixed function of
the opcode (`instruction_set` below), populated once and immutable, so it is
not part of the state. -/
structure CPU where
  registers : Nat → Nat
  program_counter : Nat
  mmu : MemoryManagementUnit
  io_controller : MockIOController
  flags : Nat
  halted : Bool

/-- `CPU::new`: all 8 registers zero, PC zero, flags zero, not halted. -/
def CPU.new (io_controller : MockIOController) (mmu : MemoryManagementUnit) : CPU :=
  { registers := fun _ => 0
    program_counter := 0
    mmu := mmu
    io_controller := io_controller
    flags := 0
    halted := false }

/-- Update one register slot, leaving the other slots unchanged. -/
def writeReg (r : Nat → Nat) (i v : Nat) : Nat → Nat :=
  fun j => if j = i then v else r j

/-- ADD: `registers[r1] = registers[r1].wrapping_add(registers[r2])`;
indexing outside the 8-entry register file is a bounds panic. -/
def CPU.add (c : CPU) (r1 r2 : Nat) : Except VMError CPU :=
  if r1 < 8 ∧ r2 < 8 then
    .ok { c with
      registers := writeReg c.registers r1 ((c.registers r1 + c.registers r2) % wordMod) }
  else .error .registerOutOfRange

/-- SUB: `wrapping_sub`. -/
def CPU.sub (c : CPU) (r1 r2 : Nat) : Except VMError CPU :=
  if r1 < 8 ∧ r2 < 8 then
    .ok { c with
      registers := writeReg c.registers r1 (wsub (c.registers r1) (c.registers r2)) }
  else .error .registerOutOfRange

/-- MUL: `wrapping_mul`. -/
def CPU.mul (c : CPU) (r1 r2 : Nat) : Except VMError CPU :=
  if r1 < 8 ∧ r2 < 8 then
    .ok { c with
      registers := writeReg c.registers r1 (c.registers r1 * c.registers r2 % wordMod) }
  else .error .registerOutOfRange

/-- DIV: the source first reads `registers[r2]`; if it is nonzero it performs
`registers[r1] /= registers[r2]` (truncating unsigned division), otherwise it
panics with "Division by zero". -/
def CPU.div (c : CPU) (r1 r2 : Nat) : Except VMError CPU :=
  if r2 < 8 then
    if c.registers r2 ≠ 0 then
      if r1 < 8 then
        .ok { c with
          registers := writeReg c.registers r1 (c.registers r1 / c.registers r2) }
      else .error .registerOutOfRange
    else .error .divisionByZero
  else .error .registerOutOfRange

/-- LOAD: `registers[r1] = mmu.read_word(registers[r2] as usize)`. -/
def CPU.load (c : CPU) (r1 r2 : Nat) : Except VMError CPU :=
  if r2 < 8 then
    match c.mmu.read_word (c.registers r2) with
    | .ok v =>
      if r1 < 8 then .ok { c with registers := writeReg c.registers r1 v }
      else .error .registerOutOfRange
    | .error e => .error e
  else .error .registerOutOfRange

/-- STORE: `mmu.write_word(registers[r2] as usize, registers[r1])`. -/
def CPU.store (c : CPU) (r1 r2 : Nat) : Except VMError CPU :=
  if r1 < 8 ∧ r2 < 8 then
    match c.mmu.write_word (c.registers r2) (c.registers r1) with
    | .ok m => .ok { c with mmu := m }
    | .error e => .error e
  else .error .registerOutOfRange

/-- INPUT: `registers[r1] = io_controller.input()`; the mock device returns
`next_input` and is itself unchanged.  `r2` is unused. -/
def CPU.input (c : CPU) (r1 _r2 : Nat) : Except VMError CPU :=
  if r1 < 8 then
    .ok { c with registers := writeReg c.registers r1 c.io_controller.next_input }
  else .error .registerOutOfRange

/-- OUTPUT: `io_controller.output(registers[r1])`; the mock device records
the value in `last_output`.  `r2` is unused. -/
def CPU.output (c : CPU) (r1 _r2 : Nat) : Except VMError CPU :=
  if r1 < 8 then
    .ok { c with
      io_controller := { c.io_controller with last_output := c.registers r1 } }
  else .error .registerOutOfRange

/-- AND: `registers[r1] &= registers[r2]`. -/
def CPU.and (c : CPU) (r1 r2 : Nat) : Except VMError CPU :=
  if r1 < 8 ∧ r2 < 8 then
    .ok { c with
      registers := writeReg c.registers r1 (Nat.land (c.registers r1) (c.registers r2)) }
  else .error .registerOutOfRange

/-- OR: `registers[r1] |= registers[r2]`. -/
def CPU.or (c : CPU) (r1 r2 : Nat) : Except VMError CPU :=
  if r1 < 8 ∧ r2 < 8 then
    .ok { c with
      registers := writeReg c.registers r1 (Nat.lor (c.registers r1) (c.registers r2)) }
  else .error .registerOutOfRange

/-- XOR: `registers[r1] ^= registers[r2]`. -/
def CPU.xor (c : CPU) (r1 r2 : Nat) : Except VMError CPU :=
  if r1 < 8 ∧ r2 < 8 then
    .ok { c with
      registers := writeReg c.registers r1 (Nat.xor (c.registers r1) (c.registers r2)) }
  else .error .registerOutOfRange

/-- NOT: `registers[r1] = !registers[r1]`; the bitwise complement of a `u32`
value `a < 2^32` is `2^32 - 1 - a`.  `r2` is unused. -/
def CPU.not (c : CPU) (r1 _r2 : Nat) : Except VMError CPU :=
  if r1 < 8 then
    .ok { c with
      registers := writeReg c.registers r1 (wordMod - 1 - c.registers r1) }
  else .error .registerOutOfRange

/-- SHL: `registers[r1] <<= registers[r2]`.  Rust's `<<` on `u32` masks the
shift amount to its low five bits (`shift % 32`) in release builds; a shift
amount of 32 or more is an arithmetic-overflow panic in debug builds and is
never a defined zero result.  The masked (release) semantics is embedded. -/
def CPU.shl (c : CPU) (r1 r2 : Nat) : Except VMError CPU :=
  if r1 < 8 ∧ r2 < 8 then
    .ok { c with
      registers := writeReg c.registers r1
        (Nat.shiftLeft (c.registers r1) (c.registers r2 % 32) % wordMod) }
  else .error .registerOutOfRange

/-- SHR: `registers[r1] >>= registers[r2]`, shift amount masked as in SHL. -/
def CPU.shr (c : CPU) (r1 r2 : Nat) : Except VMError CPU :=
  if r1 < 8 ∧ r2 < 8 then
    .ok { c with
      registers := writeReg c.registers r1
        (Nat.shiftRight (c.registers r1) (c.registers r2 % 32)) }
  else .error .registerOutOfRange

/-- CMP: `(result, overflow) = registers[r1].overflowing_sub(registers[r2])`
(for unsigned subtraction the overflow flag is set exactly when
`registers[r2] > registers[r1]`), then the flags byte is rebuilt from zero:
bit 0 if `result == 0`, bit 1 if `result & 0x80000000 != 0`, bit 2 if
the subtraction overflowed.  No register and no memory cell is written. -/
def CPU.cmp (c : CPU) (r1 r2 : Nat) : Except VMError CPU :=
  if r1 < 8 ∧ r2 < 8 then
    let result := wsub (c.registers r1) (c.registers r2)
    let f0 : Nat := 0
    let f1 := if result = 0 then Nat.lor f0 1 else f0
    let f2 := if Nat.land result 2147483648 ≠ 0 then Nat.lor f1 2 else f1
    let f3 := if c.registers r1 < c.registers r2 then Nat.lor f2 4 else f2
    .ok { c with flags := f3 }
  else .error .registerOutOfRange

/-- JMP: `program_counter = registers[r1] as usize`, unconditionally. -/
def CPU.jmp (c : CPU) (r1 _r2 : Nat) : Except VMError CPU :=
  if r1 < 8 then .ok { c with program_counter := c.registers r1 }
  else .error .registerOutOfRange

/-- JE: jump iff `flags & 0b0001 != 0` (Zero set). -/
def CPU.je (c : CPU) (r1 _r2 : Nat) : Except VMError CPU :=
  if Nat.land c.flags 1 ≠ 0 then
    if r1 < 8 then .ok { c with program_counter := c.registers r1 }
    else .error .registerOutOfRange
  else .ok c

/-- JNE: jump iff `flags & 0b0001 == 0` (Zero clear). -/
def CPU.jne (c : CPU) (r1 _r2 : Nat) : Except VMError CPU :=
  if Nat.land c.flags 1 = 0 then
    if r1 < 8 then .ok { c with program_counter := c.registers r1 }
    else .error .registerOutOfRange
  else .ok c

/-- JG: jump iff `flags & 0b0011 == 0` (Zero clear and Negative clear). -/
def CPU.jg (c : CPU) (r1 _r2 : Nat) : Except VMError CPU :=
  if Nat.land c.flags 3 = 0 then
    if r1 < 8 then .ok { c with program_counter := c.registers r1 }
    else .error .registerOutOfRange
  else .ok c

/-- JL: jump iff `flags & 0b0010 != 0` (Negative set). -/
def CPU.jl (c : CPU) (r1 _r2 : Nat) : Except VMError CPU :=
  if Nat.land c.flags 2 ≠ 0 then
    if r1 < 8 then .ok { c with program_counter := c.registers r1 }
    else .error .registerOutOfRange
  else .ok c

/-- HALT: `halted = true`; both operands unused. -/
def CPU.halt (c : CPU) (_r1 _r2 : Nat) : Except VMError CPU :=
  .ok { c with halted := true }

/-- Type of an instruction handler. -/
abbrev Handler := CPU → Nat → Nat → Except VMError CPU

/-- The dispatch table built by `initialize_instruction_set`: a fixed,
immutable mapping from opcode byte to handler, populated once at
construction; opcodes 0x40..0x53 and 0xFF have handlers, every other
opcode has none. -/
def instruction_set : Nat → Option Handler
  | 0x40 => some CPU.add
  | 0x41 => some CPU.sub
  | 0x42 => some CPU.mul
  | 0x43 => some CPU.div
  | 0x44 => some CPU.load
  | 0x45 => some CPU.store
  | 0x46 => some CPU.input
  | 0x47 => some CPU.output
  | 0x48 => some CPU.and
  | 0x49 => some CPU.or
  | 0x4A => some CPU.xor
  | 0x4B => some CPU.not
  | 0x4C => some CPU.shl
  | 0x4D => some CPU.shr
  | 0x4E => some CPU.cmp
  | 0x4F => some CPU.jmp
  | 0x50 => some CPU.je
  | 0x51 => some CPU.jne
  | 0x52 => some CPU.jg
  | 0x53 => some CPU.jl
  | 0xFF => some CPU.halt
  | _ => none

/-- `fetch`: read one byte at the program counter and advance it by one. -/
def CPU.fetch (c : CPU) : Except VMError (Nat × CPU) :=
  match c.mmu.read_byte c.program_counter with
  | .ok b => .ok (b, { c with program_counter := c.program_counter + 1 })
  | .error e => .error e

/-- `decode_and_execute`: fetch the two operand bytes, look the opcode up in
the dispatch table, and run the handler; an absent opcode is the
"Unknown opcode" panic. -/
def CPU.decode_and_execute (c : CPU) (opcode : Nat) : Except VMError CPU :=
  match c.fetch with
  | .error e => .error e
  | .ok (r1, c1) =>
    match c1.fetch with
    | .error e => .error e
    | .ok (r2, c2) =>
      match instruction_set opcode with
      | some instruction => instruction c2 r1 r2
      | none => .error (.unknownOpcode opcode)

/-- One iteration of the run loop body: fetch the opcode, then decode and
execute. -/
def CPU.step (c : CPU) : Except VMError CPU :=
  match c.fetch with
  | .ok (opcode, c1) => c1.decode_and_execute opcode
  | .error e => .error e

/-- The `while !self.halted` loop of `run`, with explicit fuel; `none` means
the fuel ran out before the machine halted. -/
def CPU.runLoop : Nat → CPU → Except VMError (Option CPU)
  | 0, _ => .ok none
  | fuel + 1, c =>
    if c.halted then .ok (some c)
    else
      match c.step with
      | .ok c' => CPU.runLoop fuel c'
      | .error e => .error e

/-- `run`: the source begins with `self.halted = false;` and then loops until
the halted flag is set. -/
def CPU.run (fuel : Nat) (c : CPU) : Except VMError (Option CPU) :=
  CPU.runLoop fuel { c with halted := false }

/-- Helper for `load_program`: write the listed bytes at consecutive
addresses. -/
def write_bytes (m : MemoryManagementUnit) (a : Nat) :
    List Nat → Except VMError MemoryManagementUnit
  | [] => .ok m
  | b :: rest =>
    match m.write_byte a b with
    | .ok m' => write_bytes m' (a + 1) rest
    | .error e => .error e

/-- `load_program`: writes `program[i]` to address `i` for each index. -/
def CPU.load_program (c : CPU) (program : List Nat) : Except VMError CPU :=
  match write_bytes c.mmu 0 program with
  | .ok m => .ok { c with mmu := m }
  | .error e => .error e

/-!  Concrete states used to instantiate the theorems below. -/

/-- A mock I/O device with no pending input. -/
def io0 : MockIOController := { next_input := 0, last_output := 0 }

/-- A mock I/O device that will deliver 5 on the next input request. -/
def io5 : MockIOController := { next_input := 5, last_output := 0 }

/-- The 20 instruction handlers other than CMP. -/
def nonCmpHandlers : List Handler :=
  [CPU.add, CPU.sub, CPU.mul, CPU.div, CPU.load, CPU.store, CPU.input, CPU.output,
   CPU.and, CPU.or, CPU.xor, CPU.not, CPU.shl, CPU.shr, CPU.jmp, CPU.je, CPU.jne,
   CPU.jg, CPU.jl, CPU.halt]

/-- States reachable from a freshly constructed engine: construction, program
loading, entry into `run` (which clears the halted flag), and successful loop
iterations. -/
inductive Reachable : CPU → Prop
  | new (dev : MockIOController) : Reachable (CPU.new dev MemoryManagementUnit.new)
  | load_program (c c' : CPU) (p : List Nat) :
      Reachable c → c.load_program p = .ok c' → Reachable c'
  | run_entry (c : CPU) : Reachable c → Reachable { c with halted := false }
  | step (c c' : CPU) : Reachable c → c.step = .ok c' → Reachable c'

/-- A state with R0 = 1 and R1 = 32, for exercising the shifts. -/
def c1_state : CPU :=
  { CPU.new io0 MemoryManagementUnit.new with
    registers := writeReg (writeReg (fun _ => 0) 0 1) 1 32 }

/-- Result of SHL R0, R1 on `c1_state` (shift amount 32). -/
def c1_shl : CPU :=
  match CPU.shl c1_state 0 1 with
  | .ok c => c
  | .error _ => c1_state

/-- Result of SHR R0, R1 on `c1_state` (shift amount 32). -/
def c1_shr : CPU :=
  match CPU.shr c1_state 0 1 with
  | .ok c => c
  | .error _ => c1_state

/-- A program: HALT; NOT R0; HALT (three-byte encoding). -/
def prog_c2 : List Nat := [255, 0, 0, 75, 0, 0, 255, 0, 0]

/-- Fresh engine loaded with `prog_c2`. -/
def c2_start : CPU :=
  match (CPU.new io0 MemoryManagementUnit.new).load_program prog_c2 with
  | .ok c => c
  | .error _ => CPU.new io0 MemoryManagementUnit.new

/-- State after one loop iteration from `c2_start` (the first HALT). -/
def c2_step1 : CPU :=
  match c2_start.step with
  | .ok c => c
  | .error _ => c2_start

/-- State after the first `run` call on `c2_start`: halted at PC 3. -/
def c2_run1 : CPU :=
  match CPU.run 2 c2_start with
  | .ok (some c) => c
  | _ => c2_start

/-- State after a second `run` call on the already-halted `c2_run1`. -/
def c2_run2 : CPU :=
  match CPU.run 3 c2_run1 with
  | .ok (some c) => c
  | _ => c2_start

/-- A state with R0 = 0x90000000, R1 = 0x10000000, R2 = 100. -/
def c3_state : CPU :=
  { CPU.new io0 MemoryManagementUnit.new with
    registers := writeReg (writeReg (writeReg (fun _ => 0) 0 2415919104) 1 268435456) 2 100 }

/-- Result of CMP R0, R1 on `c3_state`. -/
def c3_cmp : CPU :=
  match CPU.cmp c3_state 0 1 with
  | .ok c => c
  | .error _ => c3_state

/-- A state with R0 = 5, R1 = 3, R2 = 100, where JG after CMP does jump. -/
def c3w_state : CPU :=
  { CPU.new io0 MemoryManagementUnit.new with
    registers := writeReg (writeReg (writeReg (fun _ => 0) 0 5) 1 3) 2 100 }

/-- Result of CMP R0, R1 on `c3w_state`. -/
def c3w_cmp : CPU :=
  match CPU.cmp c3w_state 0 1 with
  | .ok c => c
  | .error _ => c3w_state

/-- Result of JG R2 after that compare. -/
def c3w_jg : CPU :=
  match CPU.jg c3w_cmp 2 0 with
  | .ok c => c
  | .error _ => c3w_cmp

/-- A state with R0 = 10 and R1 = 10, for exercising CMP on equal values. -/
def c4_state : CPU :=
  { CPU.new io0 MemoryManagementUnit.new with
    registers := writeReg (writeReg (fun _ => 0) 0 10) 1 10 }

/-- Result of CMP R0, R1 on `c4_state`. -/
def c4_cmp : CPU :=
  match CPU.cmp c4_state 0 1 with
  | .ok c => c
  | .error _ => c4_state

/-- A state with R0 = 15 and R1 = 3. -/
def c5_state : CPU :=
  { CPU.new io0 MemoryManagementUnit.new with
    registers := writeReg (writeReg (fun _ => 0) 0 15) 1 3 }

/-- A state with R0 = 15 and R1 = 0 (zero divisor). -/
def c5z_state : CPU :=
  { CPU.new io0 MemoryManagementUnit.new with
    registers := writeReg (fun _ => 0) 0 15 }

/-- The end-to-end test program INPUT R0; ADD R1, R0; OUTPUT R1; HALT in the
three-byte encoding. -/
def prog7 : List Nat := [70, 0, 0, 64, 1, 0, 71, 1, 0, 255, 0, 0]

/-- Fresh engine, input 5 pending, loaded with `prog7`. -/
def c7_start : CPU :=
  match (CPU.new io5 MemoryManagementUnit.new).load_program prog7 with
  | .ok c => c
  | .error _ => CPU.new io5 MemoryManagementUnit.new

/-- Final state of running `prog7`. -/
def c7_final : CPU :=
  match CPU.run 5 c7_start with
  | .ok (some c) => c
  | _ => c7_start

/-- Memory after `write_word(0, 0x12345678)` on zeroed memory. -/
def ww8 : MemoryManagementUnit :=
  match MemoryManagementUnit.new.write_word 0 305419896 with
  | .ok m => m
  | .error _ => MemoryManagementUnit.new

/-!  Frame lemmas: which parts of the state each handler can touch. -/

theorem frame_add (c c' : CPU) (r1 r2 : Nat) (h : CPU.add c r1 r2 = .ok c') :
    c'.flags = c.flags ∧ c'.halted = c.halted := by
  unfold CPU.add at h
  split_ifs at h <;> cases h <;> exact ⟨rfl, rfl⟩

theorem frame_sub (c c' : CPU) (r1 r2 : Nat) (h : CPU.sub c r1 r2 = .ok c') :
    c'.flags = c.flags ∧ c'.halted = c.halted := by
  unfold CPU.sub at h
  split_ifs at h <;> cases h <;> exact ⟨rfl, rfl⟩

theorem frame_mul (c c' : CPU) (r1 r2 : Nat) (h : CPU.mul c r1 r2 = .ok c') :
    c'.flags = c.flags ∧ c'.halted = c.halted := by
  unfold CPU.mul at h
  split_ifs at h <;> cases h <;> exact ⟨rfl, rfl⟩

theorem frame_div (c c' : CPU) (r1 r2 : Nat) (h : CPU.div c r1 r2 = .ok c') :
    c'.flags = c.flags ∧ c'.halted = c.halted := by
  unfold CPU.div at h
  split_ifs at h <;> cases h <;> exact ⟨rfl, rfl⟩

theorem frame_load (c c' : CPU) (r1 r2 : Nat) (h : CPU.load c r1 r2 = .ok c') :
    c'.flags = c.flags ∧ c'.halted = c.halted := by
  unfold CPU.load MemoryManagementUnit.read_word at h
  split_ifs at h <;> simp_all <;> cases h <;> exact ⟨rfl, rfl⟩

theorem frame_store (c c' : CPU) (r1 r2 : Nat) (h : CPU.store c r1 r2 = .ok c') :
    c'.flags = c.flags ∧ c'.halted = c.halted := by
  unfold CPU.store MemoryManagementUnit.write_word at h
  split_ifs at h <;> simp_all <;> cases h <;> exact ⟨rfl, rfl⟩

theorem frame_input (c c' : CPU) (r1 r2 : Nat) (h : CPU.input c r1 r2 = .ok c') :
    c'.flags = c.flags ∧ c'.halted = c.halted := by
  unfold CPU.input at h
  split_ifs at h <;> cases h <;> exact ⟨rfl, rfl⟩

theorem frame_output (c c' : CPU) (r1 r2 : Nat) (h : CPU.output c r1 r2 = .ok c') :
    c'.flags = c.flags ∧ c'.halted = c.halted := by
  unfold CPU.output at h
  split_ifs at h <;> cases h <;> exact ⟨rfl, rfl⟩

theorem frame_and (c c' : CPU) (r1 r2 : Nat) (h : CPU.and c r1 r2 = .ok c') :
    c'.flags = c.flags ∧ c'.halted = c.halted := by
  unfold CPU.and at h
  split_ifs at h <;> cases h <;> exact ⟨rfl, rfl⟩

theorem frame_or (c c' : CPU) (r1 r2 : Nat) (h : CPU.or c r1 r2 = .ok c') :
    c'.flags = c.flags ∧ c'.halted = c.halted := by
  unfold CPU.or at h
  split_ifs at h <;> cases h <;> exact ⟨rfl, rfl⟩

theorem frame_xor (c c' : CPU) (r1 r2 : Nat) (h : CPU.xor c r1 r2 = .ok c') :
    c'.flags = c.flags ∧ c'.halted = c.halted := by
  unfold CPU.xor at h
  split_ifs at h <;> cases h <;> exact ⟨rfl, rfl⟩

theorem frame_not (c c' : CPU) (r1 r2 : Nat) (h : CPU.not c r1 r2 = .ok c') :
    c'.flags = c.flags ∧ c'.halted = c.halted := by
  unfold CPU.not at h
  split_ifs at h <;> cases h <;> exact ⟨rfl, rfl⟩

theorem frame_shl (c c' : CPU) (r1 r2 : Nat) (h : CPU.shl c r1 r2 = .ok c') :
    c'.flags = c.flags ∧ c'.halted = c.halted := by
  unfold CPU.shl at h
  split_ifs at h <;> cases h <;> exact ⟨rfl, rfl⟩

theorem frame_shr (c c' : CPU) (r1 r2 : Nat) (h : CPU.shr c r1 r2 = .ok c') :
    c'.flags = c.flags ∧ c'.halted = c.halted := by
  unfold CPU.shr at h
  split_ifs at h <;> cases h <;> exact ⟨rfl, rfl⟩

theorem frame_jmp (c c' : CPU) (r1 r2 : Nat) (h : CPU.jmp c r1 r2 = .ok c') :
    c'.flags = c.flags ∧ c'.halted = c.halted := by
  unfold CPU.jmp at h
  split_ifs at h <;> cases h <;> exact ⟨rfl, rfl⟩

theorem frame_je (c c' : CPU) (r1 r2 : Nat) (h : CPU.je c r1 r2 = .ok c') :
    c'.flags = c.flags ∧ c'.halted = c.halted := by
  unfold CPU.je at h
  split_ifs at h <;> cases h <;> exact ⟨rfl, rfl⟩

theorem frame_jne (c c' : CPU) (r1 r2 : Nat) (h : CPU.jne c r1 r2 = .ok c') :
    c'.flags = c.flags ∧ c'.halted = c.halted := by
  unfold CPU.jne at h
  split_ifs at h <;> cases h <;> exact ⟨rfl, rfl⟩

theorem frame_jg (c c' : CPU) (r1 r2 : Nat) (h : CPU.jg c r1 r2 = .ok c') :
    c'.flags = c.flags ∧ c'.halted = c.halted := by
  unfold CPU.jg at h
  split_ifs at h <;> cases h <;> exact ⟨rfl, rfl⟩

theorem frame_jl (c c' : CPU) (r1 r2 : Nat) (h : CPU.jl c r1 r2 = .ok c') :
    c'.flags = c.flags ∧ c'.halted = c.halted := by
  unfold CPU.jl at h
  split_ifs at h <;> cases h <;> exact ⟨rfl, rfl⟩

theorem frame_halt (c c' : CPU) (r1 r2 : Nat) (h : CPU.halt c r1 r2 = .ok c') :
    c'.flags = c.flags ∧ c'.halted = true := by
  unfold CPU.halt at h
  cases h <;> exact ⟨rfl, rfl⟩

theorem frame_cmp (c c' : CPU) (r1 r2 : Nat) (h : CPU.cmp c r1 r2 = .ok c') :
    c'.flags < 8 ∧ c'.halted = c.halted := by
  unfold CPU.cmp at h
  split_ifs at h <;> cases h <;> refine ⟨?_, rfl⟩ <;> dsimp only <;>
    split_ifs <;> decide

/-- Characterization of `fetch`: the fetched byte is the memory byte at the
program counter, and fetching changes neither flags, halted, nor memory. -/
theorem fetch_char (d : CPU) (b : Nat) (d' : CPU) (hd : d.fetch = .ok (b, d')) :
    b = d.mmu.memory d.program_counter ∧ d'.flags = d.flags ∧ d'.halted = d.halted ∧
    d'.mmu = d.mmu := by
  unfold CPU.fetch MemoryManagementUnit.read_byte at hd
  split_ifs at hd <;> dsimp only at hd <;> cases hd <;> exact ⟨rfl, rfl, rfl, rfl⟩

/-- Inversion of the dispatch table: any handler it yields is one of the
21 instruction handlers, and the HALT handler only for opcode 0xFF. -/
theorem instruction_set_inv (op : Nat) (f : Handler) (hf : instruction_set op = some f) :
    f = CPU.add ∨ f = CPU.sub ∨ f = CPU.mul ∨ f = CPU.div ∨ f = CPU.load ∨ f = CPU.store ∨
    f = CPU.input ∨ f = CPU.output ∨ f = CPU.and ∨ f = CPU.or ∨ f = CPU.xor ∨ f = CPU.not ∨
    f = CPU.shl ∨ f = CPU.shr ∨ f = CPU.cmp ∨ f = CPU.jmp ∨ f = CPU.je ∨ f = CPU.jne ∨
    f = CPU.jg ∨ f = CPU.jl ∨ (f = CPU.halt ∧ op = 255) := by
  unfold instruction_set at hf
  split at hf <;> cases hf <;> simp_all

/-- One loop iteration either keeps the flags byte or rewrites it below 8
(only CMP writes it), and sets the halted flag only when the fetched opcode
byte is 0xFF. -/
theorem step_effects (c c' : CPU) (h : c.step = .ok c') :
    (c'.flags = c.flags ∨ c'.flags < 8) ∧
    (c'.halted = c.halted ∨ c.mmu.memory c.program_counter = 255) := by
  unfold CPU.step at h
  split at h
  · rename_i opcode c1 heq1
    unfold CPU.decode_and_execute at h
    split at h
    · cases h
    · rename_i r1 c2 heq2
      split at h
      · cases h
      · rename_i r2 c3 heq3
        split at h
        · rename_i instr heq4
          obtain ⟨hb1, hf1, hh1, hm1⟩ := fetch_char _ _ _ heq1
          obtain ⟨hb2, hf2, hh2, hm2⟩ := fetch_char _ _ _ heq2
          obtain ⟨hb3, hf3, hh3, hm3⟩ := fetch_char _ _ _ heq3
          rcases instruction_set_inv _ _ heq4 with
            rfl | rfl | rfl | rfl | rfl | rfl | rfl | rfl | rfl | rfl | rfl |
            rfl | rfl | rfl | rfl | rfl | rfl | rfl | rfl | rfl | ⟨rfl, hop⟩
          · rcases frame_add _ _ _ _ h with ⟨hf, hh⟩
            exact ⟨.inl (by rw [hf, hf3, hf2, hf1]), .inl (by rw [hh, hh3, hh2, hh1])⟩
          · rcases frame_sub _ _ _ _ h with ⟨hf, hh⟩
            exact ⟨.inl (by rw [hf, hf3, hf2, hf1]), .inl (by rw [hh, hh3, hh2, hh1])⟩
          · rcases frame_mul _ _ _ _ h with ⟨hf, hh⟩
            exact ⟨.inl (by rw [hf, hf3, hf2, hf1]), .inl (by rw [hh, hh3, hh2, hh1])⟩
          · rcases frame_div _ _ _ _ h with ⟨hf, hh⟩
            exact ⟨.inl (by rw [hf, hf3, hf2, hf1]), .inl (by rw [hh, hh3, hh2, hh1])⟩
          · rcases frame_load _ _ _ _ h with ⟨hf, hh⟩
            exact ⟨.inl (by rw [hf, hf3, hf2, hf1]), .inl (by rw [hh, hh3, hh2, hh1])⟩
          · rcases frame_store _ _ _ _ h with ⟨hf, hh⟩
            exact ⟨.inl (by rw [hf, hf3, hf2, hf1]), .inl (by rw [hh, hh3, hh2, hh1])⟩
          · rcases frame_input _ _ _ _ h with ⟨hf, hh⟩
            exact ⟨.inl (by rw [hf, hf3, hf2, hf1]), .inl (by rw [hh, hh3, hh2, hh1])⟩
          · rcases frame_output _ _ _ _ h with ⟨hf, hh⟩
            exact ⟨.inl (by rw [hf, hf3, hf2, hf1]), .inl (by rw [hh, hh3, hh2, hh1])⟩
          · rcases frame_and _ _ _ _ h with ⟨hf, hh⟩
            exact ⟨.inl (by rw [hf, hf3, hf2, hf1]), .inl (by rw [hh, hh3, hh2, hh1])⟩
          · rcases frame_or _ _ _ _ h with ⟨hf, hh⟩
            exact ⟨.inl (by rw [hf, hf3, hf2, hf1]), .inl (by rw [hh, hh3, hh2, hh1])⟩
          · rcases frame_xor _ _ _ _ h with ⟨hf, hh⟩
            exact ⟨.inl (by rw [hf, hf3, hf2, hf1]), .inl (by rw [hh, hh3, hh2, hh1])⟩
          · rcases frame_not _ _ _ _ h with ⟨hf, hh⟩
            exact ⟨.inl (by rw [hf, hf3, hf2, hf1]), .inl (by rw [hh, hh3, hh2, hh1])⟩
          · rcases frame_shl _ _ _ _ h with ⟨hf, hh⟩
            exact ⟨.inl (by rw [hf, hf3, hf2, hf1]), .inl (by rw [hh, hh3, hh2, hh1])⟩
          · rcases frame_shr _ _ _ _ h with ⟨hf, hh⟩
            exact ⟨.inl (by rw [hf, hf3, hf2, hf1]), .inl (by rw [hh, hh3, hh2, hh1])⟩
          · rcases frame_cmp _ _ _ _ h with ⟨hf, hh⟩
            exact ⟨.inr hf, .inl (by rw [hh, hh3, hh2, hh1])⟩
          · rcases frame_jmp _ _ _ _ h with ⟨hf, hh⟩
            exact ⟨.inl (by rw [hf, hf3, hf2, hf1]), .inl (by rw [hh, hh3, hh2, hh1])⟩
          · rcases frame_je _ _ _ _ h with ⟨hf, hh⟩
            exact ⟨.inl (by rw [hf, hf3, hf2, hf1]), .inl (by rw [hh, hh3, hh2, hh1])⟩
          · rcases frame_jne _ _ _ _ h with ⟨hf, hh⟩
            exact ⟨.inl (by rw [hf, hf3, hf2, hf1]), .inl (by rw [hh, hh3, hh2, hh1])⟩
          · rcases frame_jg _ _ _ _ h with ⟨hf, hh⟩
            exact ⟨.inl (by rw [hf, hf3, hf2, hf1]), .inl (by rw [hh, hh3, hh2, hh1])⟩
          · rcases frame_jl _ _ _ _ h with ⟨hf, hh⟩
            exact ⟨.inl (by rw [hf, hf3, hf2, hf1]), .inl (by rw [hh, hh3, hh2, hh1])⟩
          · rcases frame_halt _ _ _ _ h with ⟨hf, hh⟩
            refine ⟨.inl (by rw [hf, hf3, hf2, hf1]), .inr ?_⟩
            rw [← hb1, hop]
        · cases h
  · cases h

theorem land3_zero (z n v : Nat) (hz : z = 0 ∨ z = 1) (hn : n = 0 ∨ n = 2)
    (hv : v = 0 ∨ v = 4) :
    Nat.land (z + n + v) 3 = 0 ↔ z = 0 ∧ n = 0 := by
  rcases hz with rfl | rfl <;> rcases hn with rfl | rfl <;> rcases hv with rfl | rfl <;>
    decide

theorem load_program_flags (c c' : CPU) (p : List Nat) (h : c.load_program p = .ok c') :
    c'.flags = c.flags ∧ c'.halted = c.halted := by
  unfold CPU.load_program at h
  split at h <;> cases h <;> exact ⟨rfl, rfl⟩

theorem land_bit31 (x : Nat) (hx : x < 4294967296) :
    Nat.land x 2147483648 ≠ 0 ↔ 2 ^ 31 ≤ x := by
  have h1 : Nat.land x 2147483648 = (x.testBit 31).toNat * 2 ^ 31 := by
    have h2 := Nat.and_two_pow x 31
    norm_num at h2 ⊢
    exact h2
  rw [h1, Nat.testBit_to_div_mod]
  by_cases hd : x / 2 ^ 31 % 2 = 1 <;> simp [hd] <;> omega

theorem cmp_flags_spec (c c' : CPU) (r1 r2 : Nat) (h1 : r1 < 8) (h2 : r2 < 8)
    (h : CPU.cmp c r1 r2 = .ok c') :
    c'.flags =
      (if wsub (c.registers r1) (c.registers r2) = 0 then 1 else 0) +
      (if 2 ^ 31 ≤ wsub (c.registers r1) (c.registers r2) then 2 else 0) +
      (if c.registers r1 < c.registers r2 then 4 else 0) ∧
    c'.registers = c.registers ∧ c'.mmu = c.mmu ∧
    c'.program_counter = c.program_counter ∧ c'.halted = c.halted := by
  have hlt : wsub (c.registers r1) (c.registers r2) < 4294967296 :=
    Nat.mod_lt _ (by decide)
  unfold CPU.cmp at h
  rw [if_pos ⟨h1, h2⟩] at h
  cases h
  refine ⟨?_, rfl, rfl, rfl, rfl⟩
  dsimp only
  simp only [land_bit31 _ hlt]
  split_ifs <;> decide

/-- C1 counterexample: with R0 = 1 and a shift amount of R1 = 32 (≥ 32),
SHL leaves R0 = 1 and SHR leaves R0 = 1 — not 0 — because the Rust shift
wraps the shift amount to 32 % 32 = 0. -/
theorem C1_counterexample :
    c1_state.registers 1 = 32 ∧
    CPU.shl c1_state 0 1 = .ok c1_shl ∧ c1_shl.registers 0 = 1 ∧
    CPU.shr c1_state 0 1 = .ok c1_shr ∧ c1_shr.registers 0 = 1 :=
  ⟨rfl, rfl, rfl, rfl, rfl⟩

/-- C1 amended: SHL and SHR use the shift amount modulo 32 (the release-mode
semantics of Rust's shift operators; a debug build panics on a shift of 32 or
more): SHL sets R[r1] to `R[r1] * 2^(s % 32) mod 2^32` and SHR to
`R[r1] / 2^(s % 32)`, so a shift amount of exactly 32 leaves the register
unchanged rather than zeroing it. -/
theorem C1_amended (c : CPU) (r1 r2 : Nat) (h1 : r1 < 8) (h2 : r2 < 8)
    (ha : c.registers r1 < wordMod) :
    CPU.shl c r1 r2 =
      .ok { c with
            registers :=
              writeReg c.registers r1
                (c.registers r1 * 2 ^ (c.registers r2 % 32) % wordMod) } ∧
    CPU.shr c r1 r2 =
      .ok { c with
            registers :=
              writeReg c.registers r1
                (c.registers r1 / 2 ^ (c.registers r2 % 32)) } ∧
    (c.registers r2 = 32 →
      c.registers r1 * 2 ^ (c.registers r2 % 32) % wordMod = c.registers r1 ∧
      c.registers r1 / 2 ^ (c.registers r2 % 32) = c.registers r1) := by
  have hsl : ∀ a b : Nat, Nat.shiftLeft a b = a * 2 ^ b := fun a b => Nat.shiftLeft_eq a b
  have hsr : ∀ a b : Nat, Nat.shiftRight a b = a / 2 ^ b :=
    fun a b => Nat.shiftRight_eq_div_pow a b
  refine ⟨?_, ?_, ?_⟩
  · unfold CPU.shl
    rw [if_pos ⟨h1, h2⟩, hsl]
  · unfold CPU.shr
    rw [if_pos ⟨h1, h2⟩, hsr]
  · intro h32
    rw [h32]
    norm_num
    exact Nat.mod_eq_of_lt ha

/-- Witness for C1_amended at `c1_state` (R0 = 1, shift amount R1 = 32). -/
theorem C1_amended_witness :
    c1_state.registers 0 * 2 ^ (c1_state.registers 1 % 32) % wordMod =
      c1_state.registers 0 ∧
    c1_state.registers 0 / 2 ^ (c1_state.registers 1 % 32) = c1_state.registers 0 :=
  (C1_amended c1_state 0 1 (by decide) (by decide) (by decide)).2.2 rfl

/-- C7: the end-to-end program INPUT R0; ADD R1, R0; OUTPUT R1; HALT with
injected input 5 and R1 initially 0 halts with R0 = 5, R1 = 5, and 5 as the
last value delivered to output. -/
theorem C7_end_to_end :
    c7_start.registers 1 = 0 ∧
    CPU.run 5 c7_start = .ok (some c7_final) ∧
    c7_final.halted = true ∧ c7_final.registers 0 = 5 ∧
    c7_final.registers 1 = 5 ∧ c7_final.io_controller.last_output = 5 :=
  ⟨rfl, rfl, rfl, rfl, rfl, rfl⟩

/-- C2 counterexample: `run` begins by clearing the halted flag, so after a
run has ended with halted = true (`c2_run1`), a second run call with no reset
executes further instructions: NOT R0 runs and changes R0 from 0 to
2^32 - 1 before the next HALT. -/
theorem C2_counterexample :
    c2_run1.halted = true ∧ c2_run1.registers 0 = 0 ∧
    CPU.run 3 c2_run1 = .ok (some c2_run2) ∧
    c2_run2.registers 0 = 4294967295 ∧ c2_run2.halted = true :=
  ⟨rfl, rfl, rfl, rfl, rfl⟩

/-- C2 amended: the halted flag starts false and a loop iteration sets it
only when the fetched opcode byte is 0xFF (HALT); but `run` unconditionally
clears halted on entry, so halted is not monotone across run calls and a
second run call resumes execution at the current PC instead of executing
nothing. -/
theorem C2_amended :
    (∀ dev mmu, (CPU.new dev mmu).halted = false) ∧
    (∀ (c c' : CPU), c.step = .ok c' → c'.halted = true →
      c.halted = true ∨ c.mmu.memory c.program_counter = 255) ∧
    (∀ fuel c, CPU.run fuel c = CPU.runLoop fuel { c with halted := false }) := by
  refine ⟨fun dev mmu => rfl, fun c c' hs hh => ?_, fun fuel c => rfl⟩
  rcases (step_effects c c' hs).2 with h | h
  · exact .inl (h ▸ hh)
  · exact .inr h

/-- Witness for C2_amended: the single step from `c2_start` that halts the
machine fetched the opcode byte 0xFF. -/
theorem C2_amended_witness :
    c2_start.halted = true ∨ c2_start.mmu.memory c2_start.program_counter = 255 :=
  C2_amended.2.1 c2_start c2_step1 rfl rfl

/-- C3 counterexample: with R0 = 0x90000000 > R1 = 0x10000000 (unsigned) the
wrapped difference is 0x80000000, so CMP sets the Negative flag and JG does
not jump (PC stays 0 although the jump register R2 holds 100), refuting
"jump taken iff R[r1] > R[r2] as unsigned". -/
theorem C3_counterexample :
    c3_state.registers 0 > c3_state.registers 1 ∧
    CPU.cmp c3_state 0 1 = .ok c3_cmp ∧
    CPU.jg c3_cmp 2 0 = .ok c3_cmp ∧
    c3_cmp.program_counter = 0 ∧ c3_cmp.registers 2 = 100 :=
  ⟨by decide, rfl, rfl, rfl, rfl⟩

/-- C3 amended: after CMP, JG jumps iff Zero and Negative are both clear,
and that condition holds iff the wrapped difference (R[r1] - R[r2]) mod 2^32
is nonzero and below 2^31; this is not equivalent to unsigned
R[r1] > R[r2] (see the counterexample). -/
theorem C3_amended (c c' : CPU) (r1 r2 : Nat) (h1 : r1 < 8) (h2 : r2 < 8)
    (h : CPU.cmp c r1 r2 = .ok c') :
    (Nat.land c'.flags 3 = 0 ↔
      wsub (c.registers r1) (c.registers r2) ≠ 0 ∧
      wsub (c.registers r1) (c.registers r2) < 2 ^ 31) ∧
    (∀ jr c₂, jr < 8 → CPU.jg c' jr 0 = .ok c₂ →
      (Nat.land c'.flags 3 = 0 →
        c₂.program_counter = c'.registers jr ∧ c₂.registers = c'.registers) ∧
      (Nat.land c'.flags 3 ≠ 0 → c₂ = c')) := by
  obtain ⟨hf, hr, hm, hp, hh⟩ := cmp_flags_spec c c' r1 r2 h1 h2 h
  constructor
  · rw [hf, land3_zero _ _ _ (by split_ifs <;> simp) (by split_ifs <;> simp)
      (by split_ifs <;> simp)]
    split_ifs with hz hn <;> simp_all
  · intro jr c₂ hjr hjg
    constructor
    · intro hcond
      unfold CPU.jg at hjg
      rw [if_pos hcond, if_pos hjr] at hjg
      cases hjg
      exact ⟨rfl, rfl⟩
    · intro hcond
      unfold CPU.jg at hjg
      rw [if_neg hcond] at hjg
      cases hjg
      rfl

/-- Witness for C3_amended: with R0 = 5, R1 = 3 the compare clears Zero and
Negative, and JG jumps to the address in R2. -/
theorem C3_amended_witness :
    c3w_jg.program_counter = c3w_cmp.registers 2 ∧
    c3w_jg.registers = c3w_cmp.registers :=
  ((C3_amended c3w_state c3w_cmp 0 1 (by decide) (by decide) rfl).2 2 c3w_jg
    (by decide) rfl).1 (by decide)

/-- C4: CMP sets the flags byte to exactly Zero (diff = 0, bit 0), Negative
(high bit of the wrapped difference, bit 1) and Overflow (the subtraction
borrowed, i.e. R[r1] < R[r2], bit 2), clears every other bit (the byte is
below 8), and mutates no register, no memory cell, and not the PC. -/
theorem C4_cmp_flags (c c' : CPU) (r1 r2 : Nat) (h1 : r1 < 8) (h2 : r2 < 8)
    (h : CPU.cmp c r1 r2 = .ok c') :
    c'.flags =
      (if wsub (c.registers r1) (c.registers r2) = 0 then 1 else 0) +
      (if 2 ^ 31 ≤ wsub (c.registers r1) (c.registers r2) then 2 else 0) +
      (if c.registers r1 < c.registers r2 then 4 else 0) ∧
    c'.flags < 8 ∧
    c'.registers = c.registers ∧ c'.mmu = c.mmu ∧
    c'.program_counter = c.program_counter := by
  obtain ⟨hf, hr, hm, hp, hh⟩ := cmp_flags_spec c c' r1 r2 h1 h2 h
  refine ⟨hf, ?_, hr, hm, hp⟩
  rw [hf]
  split_ifs <;> decide

/-- Witness for C4 at R0 = R1 = 10: the flags become exactly the Zero bit. -/
theorem C4_cmp_flags_witness :
    c4_cmp.flags =
      (if wsub (c4_state.registers 0) (c4_state.registers 1) = 0 then 1 else 0) +
      (if 2 ^ 31 ≤ wsub (c4_state.registers 0) (c4_state.registers 1) then 2 else 0) +
      (if c4_state.registers 0 < c4_state.registers 1 then 4 else 0) ∧
    c4_cmp.flags < 8 :=
  ⟨(C4_cmp_flags c4_state c4_cmp 0 1 (by decide) (by decide) rfl).1,
   (C4_cmp_flags c4_state c4_cmp 0 1 (by decide) (by decide) rfl).2.1⟩

/-- C5: DIV fails with DivisionByZero exactly when the divisor register is
zero, regardless of the dividend; with a nonzero divisor it writes the
truncating quotient into R[r1] and touches nothing else. -/
theorem C5_div_by_zero (c : CPU) (r1 r2 : Nat) (h1 : r1 < 8) (h2 : r2 < 8) :
    (c.registers r2 = 0 → CPU.div c r1 r2 = .error .divisionByZero) ∧
    (c.registers r2 ≠ 0 → CPU.div c r1 r2 =
      .ok { c with
            registers := writeReg c.registers r1 (c.registers r1 / c.registers r2) }) := by
  constructor
  · intro hz
    unfold CPU.div
    rw [if_pos h2, if_neg (by simp [hz])]
  · intro hz
    unfold CPU.div
    rw [if_pos h2, if_pos hz, if_pos h1]

/-- Witness for C5: dividing R0 = 15 by R1 = 0 faults, and by R1 = 3 yields
the quotient 15 / 3 = 5 in R0. -/
theorem C5_div_by_zero_witness :
    CPU.div c5z_state 0 1 = .error .divisionByZero ∧
    CPU.div c5_state 0 1 =
      .ok { c5_state with
            registers :=
              writeReg c5_state.registers 0
                (c5_state.registers 0 / c5_state.registers 1) } :=
  ⟨(C5_div_by_zero c5z_state 0 1 (by decide) (by decide)).1 rfl,
   (C5_div_by_zero c5_state 0 1 (by decide) (by decide)).2 (by decide)⟩

/-- C6: any opcode byte outside 0x40..0x53 and different from 0xFF has no
entry in the dispatch table; decoding it fails with UnknownOpcode (for every
value of the two operand bytes, which are fetched before dispatch), and the
run loop aborts with that error instead of skipping the instruction. -/
theorem C6_unknown_opcode (op : Nat) (hop : op < 256)
    (hlo : op < 64 ∨ 83 < op) (hff : op ≠ 255) :
    instruction_set op = none ∧
    (∀ c : CPU, c.program_counter + 1 < memSize →
      c.decode_and_execute op = .error (.unknownOpcode op)) ∧
    (∀ (fuel : Nat) (c : CPU), c.halted = false →
      c.mmu.memory c.program_counter = op → c.program_counter + 2 < memSize →
      CPU.runLoop (fuel + 1) c = .error (.unknownOpcode op)) := by
  have hnone : instruction_set op = none := by
    unfold instruction_set
    split
    all_goals first | rfl | omega
  have hdec : ∀ c : CPU, c.program_counter + 1 < memSize →
      c.decode_and_execute op = .error (.unknownOpcode op) := by
    intro c hpc
    unfold CPU.decode_and_execute CPU.fetch MemoryManagementUnit.read_byte
    rw [if_pos (show c.program_counter < memSize by omega)]
    dsimp only
    rw [if_pos (show c.program_counter + 1 < memSize from hpc)]
    dsimp only
    rw [hnone]
  refine ⟨hnone, hdec, ?_⟩
  intro fuel c hh hmem hpc
  unfold CPU.runLoop
  rw [hh, if_neg Bool.false_ne_true]
  unfold CPU.step CPU.fetch MemoryManagementUnit.read_byte
  rw [if_pos (show c.program_counter < memSize by omega)]
  dsimp only
  rw [hmem, hdec { c with program_counter := c.program_counter + 1 } (by dsimp only; omega)]

/-- Witness for C6 at opcode 0x00 on a fresh engine (memory all zero):
no table entry, decode faults, and the run loop aborts immediately. -/
theorem C6_unknown_opcode_witness :
    instruction_set 0 = none ∧
    (CPU.new io0 MemoryManagementUnit.new).decode_and_execute 0 =
      .error (.unknownOpcode 0) ∧
    CPU.runLoop 1 (CPU.new io0 MemoryManagementUnit.new) =
      .error (.unknownOpcode 0) :=
  ⟨(C6_unknown_opcode 0 (by decide) (.inl (by decide)) (by decide)).1,
   (C6_unknown_opcode 0 (by decide) (.inl (by decide)) (by decide)).2.1
     (CPU.new io0 MemoryManagementUnit.new) (by decide),
   (C6_unknown_opcode 0 (by decide) (.inl (by decide)) (by decide)).2.2 0
     (CPU.new io0 MemoryManagementUnit.new) rfl rfl (by decide)⟩

/-- C8: read_word fails with OutOfBounds exactly when addr + 3 ≥ 65536, and
otherwise returns the little-endian combination of the four bytes at
addr..addr+3 (least significant first); write_word(0, 0x12345678) stores the
bytes 0x78, 0x56, 0x34, 0x12 at addresses 0, 1, 2, 3. -/
theorem C8_word_semantics (m : MemoryManagementUnit) (addr : Nat) :
    (memSize ≤ addr + 3 → m.read_word addr = .error .outOfBounds) ∧
    (addr + 3 < memSize → m.read_word addr =
      .ok (m.memory addr + 256 * m.memory (addr + 1) + 65536 * m.memory (addr + 2) +
        16777216 * m.memory (addr + 3))) ∧
    (∀ m', m.write_word 0 305419896 = .ok m' →
      m'.memory 0 = 120 ∧ m'.memory 1 = 86 ∧ m'.memory 2 = 52 ∧ m'.memory 3 = 18) := by
  refine ⟨?_, ?_, ?_⟩
  · intro hge
    unfold MemoryManagementUnit.read_word
    rw [if_neg (by omega)]
  · intro hlt
    unfold MemoryManagementUnit.read_word
    rw [if_pos hlt]
    congr 1
    ring
  · intro m' h
    unfold MemoryManagementUnit.write_word at h
    rw [if_pos (by decide)] at h
    cases h
    exact ⟨rfl, rfl, rfl, rfl⟩

/-- Witness for C8: on zeroed memory, reading at 65533 faults, reading at 0
yields 0, and after write_word(0, 0x12345678) the four bytes are as listed. -/
theorem C8_word_semantics_witness :
    MemoryManagementUnit.new.read_word 65533 = .error .outOfBounds ∧
    MemoryManagementUnit.new.read_word 0 = .ok 0 ∧
    ww8.memory 0 = 120 ∧ ww8.memory 1 = 86 ∧ ww8.memory 2 = 52 ∧
    ww8.memory 3 = 18 :=
  ⟨(C8_word_semantics MemoryManagementUnit.new 65533).1 (by decide),
   (C8_word_semantics MemoryManagementUnit.new 0).2.1 (by decide),
   ((C8_word_semantics MemoryManagementUnit.new 0).2.2 ww8 rfl).1,
   ((C8_word_semantics MemoryManagementUnit.new 0).2.2 ww8 rfl).2.1,
   ((C8_word_semantics MemoryManagementUnit.new 0).2.2 ww8 rfl).2.2.1,
   ((C8_word_semantics MemoryManagementUnit.new 0).2.2 ww8 rfl).2.2.2⟩

/-- C9: every instruction handler other than CMP — ADD, SUB, MUL, DIV, LOAD,
STORE, INPUT, OUTPUT, AND, OR, XOR, NOT, SHL, SHR, JMP, JE, JNE, JG, JL and
HALT — leaves the flags byte unchanged when it executes successfully. -/
theorem C9_flags_frame (f : Handler) (hf : f ∈ nonCmpHandlers) (c c' : CPU)
    (r1 r2 : Nat) (h : f c r1 r2 = .ok c') : c'.flags = c.flags := by
  simp only [nonCmpHandlers, List.mem_cons, List.not_mem_nil, or_false] at hf
  rcases hf with rfl|rfl|rfl|rfl|rfl|rfl|rfl|rfl|rfl|rfl|rfl|rfl|rfl|rfl|rfl|rfl|rfl|rfl|rfl|rfl
  · exact (frame_add _ _ _ _ h).1
  · exact (frame_sub _ _ _ _ h).1
  · exact (frame_mul _ _ _ _ h).1
  · exact (frame_div _ _ _ _ h).1
  · exact (frame_load _ _ _ _ h).1
  · exact (frame_store _ _ _ _ h).1
  · exact (frame_input _ _ _ _ h).1
  · exact (frame_output _ _ _ _ h).1
  · exact (frame_and _ _ _ _ h).1
  · exact (frame_or _ _ _ _ h).1
  · exact (frame_xor _ _ _ _ h).1
  · exact (frame_not _ _ _ _ h).1
  · exact (frame_shl _ _ _ _ h).1
  · exact (frame_shr _ _ _ _ h).1
  · exact (frame_jmp _ _ _ _ h).1
  · exact (frame_je _ _ _ _ h).1
  · exact (frame_jne _ _ _ _ h).1
  · exact (frame_jg _ _ _ _ h).1
  · exact (frame_jl _ _ _ _ h).1
  · exact (frame_halt _ _ _ _ h).1

/-- Witness for C9: HALT on a fresh engine leaves the flags byte unchanged. -/
theorem C9_flags_frame_witness :
    ({ CPU.new io0 MemoryManagementUnit.new with halted := true } : CPU).flags =
      (CPU.new io0 MemoryManagementUnit.new).flags :=
  C9_flags_frame CPU.halt (by simp [nonCmpHandlers])
    (CPU.new io0 MemoryManagementUnit.new)
    { CPU.new io0 MemoryManagementUnit.new with halted := true } 0 0 rfl

/-- C10: in every state reachable from a freshly constructed engine the flags
byte is strictly below 8 — it starts at 0, only CMP writes it, and CMP only
sets the three low bits. -/
theorem C10_flags_invariant (c : CPU) (h : Reachable c) : c.flags < 8 := by
  induction h with
  | new dev => exact (by decide : (0:Nat) < 8)
  | load_program c c' p hr hl ih =>
      rw [(load_program_flags c c' p hl).1]
      exact ih
  | run_entry c hr ih => exact ih
  | step c c' hr hs ih =>
      rcases (step_effects c c' hs).1 with hfe | hfe
      · rw [hfe]; exact ih
      · exact hfe

/-- Witness for C10 at a freshly constructed engine. -/
theorem C10_flags_invariant_witness :
    (CPU.new io0 MemoryManagementUnit.new).flags < 8 :=
  C10_flags_invariant _ (Reachable.new io0)
